import Mathlib

set_option maxRecDepth 8000

/-!
Shallow embedding of the `rbxlx-mesh-fixer` repository (Rust) for checking its
natural-language specification.

Modelling conventions:
* Rust `f32` values are embedded as exact rationals (`ℚ`).  The bit pattern of
  a little-endian `f32` read from the byte stream is decoded exactly for
  finite floats; the NaN/Infinity patterns (exponent 255) are outside the
  model and mapped to 0.  Rounding of `f32` arithmetic is not modelled:
  additions and comparisons are exact, which matches `f32` exactly on the
  concrete dyadic inputs used below.
* Byte buffers are `List ℕ` (each element a byte value).
* Rust machine integers are embedded as `ℤ`, with explicit two's-complement
  interpretation where bytes are decoded.  The two `i32` operations that can
  overflow at decodable inputs — the triangle-count subtraction and the final
  hash addition — are wrapped with `wrap32`, matching release-profile Rust.
* Fallible code returns `Except RunErr α`.  The constructors record whether
  the Rust code returns an `Err` to its caller (`ioEof`, `utf8Err` — produced
  by the `?` operator) or panics, aborting the process (`panicAssert` for a
  failed `assert_eq!`, `panicIndex` for an out-of-bounds `Vec` index).
-/

/-- Error/abort outcomes of the decoder. `ioEof` models the `io::Error`
(unexpected end of file) returned by the `byteorder` read calls through `?`;
`utf8Err` models the `Utf8Error` returned by `std::str::from_utf8` through
`?`; `panicAssert` models a failed `assert_eq!` (process abort); `panicIndex`
models an out-of-bounds vector index (process abort). -/
inductive RunErr where
| ioEof : RunErr
| utf8Err : RunErr
| panicAssert : RunErr
| panicIndex : RunErr
deriving DecidableEq, Repr

/-- Distinguishes the outcomes that abort the process (Rust panics) from the
outcomes returned as `Err` values to the caller. -/
def RunErr.aborts : RunErr → Bool
| .panicAssert => true
| .panicIndex => true
| _ => false

/-- Mirrors `rbx_types::Vector3` with exact-rational components. -/
structure Vec3 where
x : ℚ
y : ℚ
z : ℚ
deriving DecidableEq, Repr

/-- Mirrors `rbx_types::Matrix3` (rows `x`, `y`, `z`). -/
structure Matrix3 where
x : Vec3
y : Vec3
z : Vec3
deriving DecidableEq, Repr

/-- Mirrors `rbx_types::CFrame`: a position and a 3×3 rotation matrix. -/
structure CFrame where
position : Vec3
orientation : Matrix3
deriving DecidableEq, Repr

/-- Mirrors `RobloxBoneWeights` (4 bone indices and 4 weights, bytes). -/
structure RobloxBoneWeights where
bones : List ℕ
weights : List ℕ
deriving DecidableEq, Repr

/-- Mirrors `RobloxMeshVertex`. -/
structure RobloxMeshVertex where
position : Vec3
normal : Vec3
uv : Vec3
color : ℤ
weights : RobloxBoneWeights
deriving DecidableEq, Repr

/-- Mirrors `RobloxMeshHeader`. -/
structure RobloxMeshHeader where
num_meshes : ℤ
num_verts : ℤ
num_faces : ℤ
num_lods : ℤ
num_bones : ℤ
num_skin_data : ℤ
name_table_size : ℤ
stub : ℤ
deriving DecidableEq, Repr

/-- Mirrors `RobloxMeshBoundingBox` (the four extreme vertices kept by
`caculate_bounding_box`). -/
structure RobloxMeshBoundingBox where
min_x : Vec3
max_x : Vec3
min_z : Vec3
max_z : Vec3
deriving DecidableEq, Repr

/-- Mirrors `RobloxMeshBoundingBoxSize` (component-wise min/max corners). -/
structure RobloxMeshBoundingBoxSize where
min : Vec3
max : Vec3
deriving DecidableEq, Repr

/-- Mirrors `RobloxMesh`. -/
structure RobloxMesh where
header : RobloxMeshHeader
lods : List ℤ
faces : List (ℤ × ℤ × ℤ)
vertices : List RobloxMeshVertex
bounding_box : RobloxMeshBoundingBox
bounding_box_size : RobloxMeshBoundingBoxSize
rotation : Vec3
triangles : ℤ
hash : ℤ
deriving DecidableEq, Repr

/-- The zero vector produced by `RobloxMesh::default_vector`. -/
def default_vector : Vec3 := ⟨0, 0, 0⟩

/-- Exact value of a finite little-endian `f32` bit pattern.  Subnormals are
decoded exactly; the NaN/Infinity patterns (exponent field 255) are outside
the model and mapped to 0. -/
def f32FromBits (b : ℕ) : ℚ :=
let sign : ℕ := b / 2 ^ 31 % 2
let expo : ℕ := b / 2 ^ 23 % 256
let frac : ℕ := b % 2 ^ 23
let mag : ℚ :=
  if expo = 0 then mkRat frac (2 ^ 149)
  else if expo = 255 then 0
  else mkRat ((8388608 + frac) * 2 ^ expo) (2 ^ 150)
if sign = 1 then -mag else mag

/-- Two's-complement wrap-around of an `i32` result, as Rust release builds
compute overflowing `i32` arithmetic.  (A debug build panics instead of
wrapping; it panics exactly where the wrapped and unwrapped values differ, so
every mesh a debug build does decode satisfies the same equations.) -/
def wrap32 (n : ℤ) : ℤ := (n + 2 ^ 31) % 2 ^ 32 - 2 ^ 31

/-- Rust's `as i32` cast from `f32`: truncation toward zero, saturating at the
`i32` bounds (NaN, outside the model, would map to 0). -/
def f32AsI32 (q : ℚ) : ℤ :=
let t : ℤ := if 0 ≤ q then ⌊q⌋ else ⌈q⌉
max (-(2 ^ 31)) (min (2 ^ 31 - 1) t)

/-- Unsigned value of four little-endian bytes. -/
def u32Val (b0 b1 b2 b3 : ℕ) : ℕ := b0 + 256 * b1 + 65536 * b2 + 16777216 * b3

/-- Two's-complement value of a little-endian `i32`. -/
def i32Val (b0 b1 b2 b3 : ℕ) : ℤ :=
let n := u32Val b0 b1 b2 b3
if n < 2147483648 then (n : ℤ) else (n : ℤ) - 4294967296

/-- Two's-complement value of a little-endian `i16`. -/
def i16Val (b0 b1 : ℕ) : ℤ :=
let n := b0 + 256 * b1
if n < 32768 then (n : ℤ) else (n : ℤ) - 65536

/-- `byteorder` read of a `u16` (fails with an I/O error on a short buffer). -/
def readU16 : List ℕ → Except RunErr (ℤ × List ℕ)
| b0 :: b1 :: r => .ok ((b0 + 256 * b1 : ℕ), r)
| _ => .error .ioEof

/-- `byteorder` read of an `i16` (fails with an I/O error on a short buffer). -/
def readI16 : List ℕ → Except RunErr (ℤ × List ℕ)
| b0 :: b1 :: r => .ok (i16Val b0 b1, r)
| _ => .error .ioEof

/-- `byteorder` read of an `i32` (fails with an I/O error on a short buffer). -/
def readI32 : List ℕ → Except RunErr (ℤ × List ℕ)
| b0 :: b1 :: b2 :: b3 :: r => .ok (i32Val b0 b1 b2 b3, r)
| _ => .error .ioEof

/-- `byteorder` read of an `f32` (fails with an I/O error on a short buffer). -/
def readF32 : List ℕ → Except RunErr (ℚ × List ℕ)
| b0 :: b1 :: b2 :: b3 :: r => .ok (f32FromBits (u32Val b0 b1 b2 b3), r)
| _ => .error .ioEof

/-- `std::io::Read::read` into a `k`-byte array: reads `min k len` bytes and
never fails.  Returns the bytes actually read and the rest of the buffer. -/
def readUpTo (k : ℕ) (buf : List ℕ) : List ℕ × List ℕ := (buf.take k, buf.drop k)

/-- Zero-pads a byte list on the right to length `k`, modelling the
zero-initialised Rust array that `read` only partially fills. -/
def padTo (k : ℕ) (l : List ℕ) : List ℕ := l ++ List.replicate (k - l.length) 0

/-- Membership in Unicode `White_Space`, the set stripped by Rust's
`char::is_whitespace` and hence by `str::trim`: U+0009..U+000D, space, NEL,
NBSP, U+1680, U+2000..U+200A, U+2028, U+2029, U+202F, U+205F and U+3000. -/
def rustIsWhitespace (c : Char) : Bool :=
c.val = 0x09 || c.val = 0x0A || c.val = 0x0B || c.val = 0x0C || c.val = 0x0D ||
  c.val = 0x20 || c.val = 0x85 || c.val = 0xA0 || c.val = 0x1680 ||
  (0x2000 ≤ c.val && c.val ≤ 0x200A) || c.val = 0x2028 || c.val = 0x2029 ||
  c.val = 0x202F || c.val = 0x205F || c.val = 0x3000

/-- Rust's `str::trim` strips leading and trailing Unicode whitespace; this
is the leading strip on a character list. -/
def trimCharsLeft : List Char → List Char
| [] => []
| c :: r => if rustIsWhitespace c then trimCharsLeft r else c :: r

/-- Both-ended trim on the character list of a string. -/
def trimChars (l : List Char) : List Char :=
(trimCharsLeft (trimCharsLeft l).reverse).reverse

/-- Model of Rust's `str::trim`. -/
def rustTrim (s : String) : String := ⟨trimChars s.data⟩

/-- Is `b` a UTF-8 continuation byte? -/
def utf8Cont (b : ℕ) : Bool := 128 ≤ b && b ≤ 191

/-- UTF-8 validity of a byte list, as checked by `std::str::from_utf8`
(rejecting overlong encodings, surrogates and values above U+10FFFF). -/
def utf8Valid : List ℕ → Bool
| [] => true
| b :: rest =>
  if b ≤ 127 then utf8Valid rest
  else if 194 ≤ b && b ≤ 223 then
    match rest with
    | c1 :: r => utf8Cont c1 && utf8Valid r
    | [] => false
  else if b = 224 then
    match rest with
    | c1 :: c2 :: r => (160 ≤ c1 && c1 ≤ 191) && utf8Cont c2 && utf8Valid r
    | _ => false
  else if (225 ≤ b && b ≤ 236) || b = 238 || b = 239 then
    match rest with
    | c1 :: c2 :: r => utf8Cont c1 && utf8Cont c2 && utf8Valid r
    | _ => false
  else if b = 237 then
    match rest with
    | c1 :: c2 :: r => (128 ≤ c1 && c1 ≤ 159) && utf8Cont c2 && utf8Valid r
    | _ => false
  else if b = 240 then
    match rest with
    | c1 :: c2 :: c3 :: r => (144 ≤ c1 && c1 ≤ 191) && utf8Cont c2 && utf8Cont c3 && utf8Valid r
    | _ => false
  else if 241 ≤ b && b ≤ 243 then
    match rest with
    | c1 :: c2 :: c3 :: r => utf8Cont c1 && utf8Cont c2 && utf8Cont c3 && utf8Valid r
    | _ => false
  else if b = 244 then
    match rest with
    | c1 :: c2 :: c3 :: r => (128 ≤ c1 && c1 ≤ 143) && utf8Cont c2 && utf8Cont c3 && utf8Valid r
    | _ => false
  else false

/-- The bytes of the required version banner `"version 4.00\n"`. -/
def bannerBytes : List ℕ := [118, 101, 114, 115, 105, 111, 110, 32, 52, 46, 48, 48, 10]

/-- The eight header-field reads of `read_header`, in the evaluation order of
the struct literal in the source. -/
def readHeaderFields (r0 : List ℕ) : Except RunErr (RobloxMeshHeader × List ℕ) := do
let (nm, r1) ← readU16 r0
let (nv, r2) ← readI32 r1
let (nf, r3) ← readI32 r2
let (nl, r4) ← readU16 r3
let (nb, r5) ← readU16 r4
let (nts, r6) ← readI32 r5
let (nsd, r7) ← readU16 r6
let (st, r8) ← readU16 r7
.ok (⟨nm, nv, nf, nl, nb, nsd, nts, st⟩, r8)

/-- Mirrors `RobloxMesh::read_header`: reads the 13-byte version banner with
`Read::read` (which zero-pads on a short buffer and never fails), checks it is
valid UTF-8 (`?` on `from_utf8`), asserts it equals `"version 4.00\n"` and
that the following `i16` equals 24 (both `assert_eq!`, i.e. panics), then
reads the eight header fields. -/
def read_header (buf : List ℕ) : Except RunErr (RobloxMeshHeader × List ℕ) :=
let v := padTo 13 (buf.take 13)
let rest := buf.drop 13
if utf8Valid v then
  if v = bannerBytes then
    match readI16 rest with
    | .error e => .error e
    | .ok (sz, r0) => if sz = 24 then readHeaderFields r0 else .error .panicAssert
  else .error .panicAssert
else .error .utf8Err

/-- Mirrors `RobloxMesh::read_vector3`. -/
def read_vector3 (buf : List ℕ) : Except RunErr (Vec3 × List ℕ) := do
let (x, r1) ← readF32 buf
let (y, r2) ← readF32 r1
let (z, r3) ← readF32 r2
.ok (⟨x, y, z⟩, r3)

/-- Mirrors `RobloxMesh::read_vert_weights`: two `Read::read` calls into
4-byte zero-initialised arrays; short buffers are silently zero-padded and
never produce an error. -/
def read_vert_weights (buf : List ℕ) : RobloxBoneWeights × List ℕ :=
let (bs, r1) := readUpTo 4 buf
let (ws, r2) := readUpTo 4 r1
(⟨padTo 4 bs, padTo 4 ws⟩, r2)

/-- One vertex record of the position block (position, normal, uv, colour);
the weights field is zero-initialised as in `read_verts`. -/
def readVertexRecord (buf : List ℕ) : Except RunErr (RobloxMeshVertex × List ℕ) := do
let (p, r1) ← read_vector3 buf
let (n, r2) ← read_vector3 r1
let (uv, r3) ← read_vector3 r2
let (c, r4) ← readI32 r3
.ok (⟨p, n, uv, c, ⟨[0, 0, 0, 0], [0, 0, 0, 0]⟩⟩, r4)

/-- The `for _ in 0..header.num_verts` loop of `read_verts`. -/
def readVertsLoop : ℕ → List ℕ → Except RunErr (List RobloxMeshVertex × List ℕ)
| 0, buf => .ok ([], buf)
| n + 1, buf => do
  let (v, r1) ← readVertexRecord buf
  let (vs, r2) ← readVertsLoop n r1
  .ok (v :: vs, r2)

/-- The second pass of `read_verts`: when `num_bones > 0`, each vertex in turn
receives a bone-weight record read from the trailing block. -/
def attachWeights : List RobloxMeshVertex → List ℕ → List RobloxMeshVertex × List ℕ
| [], buf => ([], buf)
| v :: vs, buf =>
  let (w, r1) := read_vert_weights buf
  let (rest, r2) := attachWeights vs r1
  ({ v with weights := w } :: rest, r2)

/-- Mirrors `RobloxMesh::read_verts`. -/
def read_verts (header : RobloxMeshHeader) (buf : List ℕ) :
    Except RunErr (List RobloxMeshVertex × List ℕ) := do
let (vs, r1) ← readVertsLoop header.num_verts.toNat buf
if header.num_bones > 0 then .ok (attachWeights vs r1) else .ok (vs, r1)

/-- The `for _ in 0..header.num_faces` loop of `read_faces`. -/
def readFacesLoop : ℕ → List ℕ → Except RunErr (List (ℤ × ℤ × ℤ) × List ℕ)
| 0, buf => .ok ([], buf)
| n + 1, buf => do
  let (a, r1) ← readI32 buf
  let (b, r2) ← readI32 r1
  let (c, r3) ← readI32 r2
  let (fs, r4) ← readFacesLoop n r3
  .ok ((a, b, c) :: fs, r4)

/-- Mirrors `RobloxMesh::read_faces`. -/
def read_faces (header : RobloxMeshHeader) (buf : List ℕ) :
    Except RunErr (List (ℤ × ℤ × ℤ) × List ℕ) :=
readFacesLoop header.num_faces.toNat buf

/-- The `for _ in 0..header.num_lods` loop of `read_lods`. -/
def readLodsLoop : ℕ → List ℕ → Except RunErr (List ℤ × List ℕ)
| 0, buf => .ok ([], buf)
| n + 1, buf => do
  let (a, r1) ← readI32 buf
  let (ls, r2) ← readLodsLoop n r1
  .ok (a :: ls, r2)

/-- Mirrors `RobloxMesh::read_lods`. -/
def read_lods (header : RobloxMeshHeader) (buf : List ℕ) :
    Except RunErr (List ℤ × List ℕ) :=
readLodsLoop header.num_lods.toNat buf

/-- The structural phase of `RobloxMesh::from_cursor`: header, vertices,
faces and LOD boundaries, in the evaluation order of the struct literal. -/
def structDecode (buf : List ℕ) :
    Except RunErr (RobloxMeshHeader × List RobloxMeshVertex × List (ℤ × ℤ × ℤ) × List ℤ) := do
let (h, r1) ← read_header buf
let (vs, r2) ← read_verts h r1
let (fs, r3) ← read_faces h r2
let (ls, _) ← read_lods h r3
.ok (h, vs, fs, ls)

/-- One step of the `check_set_min!`/`check_set_max!` fold of
`calculate_bounding_box_size` over a vertex position. -/
def bboxStep (mn mx p : Vec3) : Vec3 × Vec3 :=
(⟨if p.x < mn.x then p.x else mn.x, if p.y < mn.y then p.y else mn.y,
  if p.z < mn.z then p.z else mn.z⟩,
 ⟨if p.x > mx.x then p.x else mx.x, if p.y > mx.y then p.y else mx.y,
  if p.z > mx.z then p.z else mx.z⟩)

/-- The loop of `calculate_bounding_box_size` over all vertex positions. -/
def bboxLoop (mn mx : Vec3) : List Vec3 → Vec3 × Vec3
| [] => (mn, mx)
| p :: rest =>
  let s := bboxStep mn mx p
  bboxLoop s.1 s.2 rest

/-- Mirrors `RobloxMesh::calculate_bounding_box_size`: both corners start at
the first vertex position (panics with an index error when there is none) and
are folded over every vertex, the first included again. -/
def calculate_bounding_box_size (vertices : List RobloxMeshVertex) :
    Except RunErr RobloxMeshBoundingBoxSize :=
match vertices with
| [] => .error .panicIndex
| v0 :: _ =>
  let r := bboxLoop v0.position v0.position (vertices.map (·.position))
  .ok ⟨r.1, r.2⟩

/-- The scan of `get_vertex_and_remove`: enumerates the items, replacing the
current best (index and value) whenever the predicate accepts the visited
item over it. -/
def pickLoop (p : RobloxMeshVertex → RobloxMeshVertex → Bool) :
    List RobloxMeshVertex → ℕ → ℕ → RobloxMeshVertex → ℕ × RobloxMeshVertex
| [], _, gi, gv => (gi, gv)
| v :: rest, idx, gi, gv =>
  if p v gv then pickLoop p rest (idx + 1) idx v else pickLoop p rest (idx + 1) gi gv

/-- Mirrors `RobloxMesh::get_vertex_and_remove`: panics (index error) on an
empty vector, otherwise returns the selected vertex and the vector with it
removed. -/
def get_vertex_and_remove (p : RobloxMeshVertex → RobloxMeshVertex → Bool)
    (items : List RobloxMeshVertex) :
    Except RunErr (RobloxMeshVertex × List RobloxMeshVertex) :=
match items with
| [] => .error .panicIndex
| v0 :: _ =>
  let r := pickLoop p items 0 0 v0
  .ok (r.2, items.eraseIdx r.1)

/-- Mirrors `RobloxMesh::caculate_bounding_box` (name as in the source): four
successive extractions of extreme vertices from a clone of the vertex list. -/
def caculate_bounding_box (vertices : List RobloxMeshVertex) :
    Except RunErr RobloxMeshBoundingBox := do
let (mnx, vs1) ← get_vertex_and_remove (fun v g => v.position.x < g.position.x) vertices
let (mxx, vs2) ← get_vertex_and_remove (fun v g => v.position.x > g.position.x) vs1
let (mnz, vs3) ← get_vertex_and_remove (fun v g => v.position.z < g.position.z) vs2
let (mxz, _) ← get_vertex_and_remove (fun v g => v.position.z > g.position.z) vs3
.ok ⟨mnx.position, mxx.position, mnz.position, mxz.position⟩

/-- Mirrors `RobloxMesh::calculate_hash`: the sums of the min and max corner
components, then the `i32` addition `triangles + (min.abs() + max) as i32`,
which wraps on overflow (release profile). -/
def calculate_hash (triangles : ℤ) (bbs : RobloxMeshBoundingBoxSize) : ℤ :=
let mn := bbs.min.x + bbs.min.y + bbs.min.z
let mx := bbs.max.x + bbs.max.y + bbs.max.z
wrap32 (triangles + f32AsI32 (abs mn + mx))

/-- The tail of `RobloxMesh::from_cursor` after the structural reads: the
triangle count from the LOD boundaries, then `calculate_bounding_box_size`,
`caculate_bounding_box` and `calculate_hash`. -/
def finalizeMesh (h : RobloxMeshHeader) (vertices : List RobloxMeshVertex)
    (faces : List (ℤ × ℤ × ℤ)) (lods : List ℤ) : Except RunErr RobloxMesh := do
let triangles : ℤ := if lods.length > 1 then wrap32 (lods.getD 1 0 - lods.getD 0 0) else 0
let bbs ← calculate_bounding_box_size vertices
let bb ← caculate_bounding_box vertices
.ok { header := h, lods := lods, faces := faces, vertices := vertices,
      bounding_box := bb, bounding_box_size := bbs, rotation := default_vector,
      triangles := triangles, hash := calculate_hash triangles bbs }

/-- Mirrors `RobloxMesh::from_cursor` end to end. -/
def from_cursor (buf : List ℕ) : Except RunErr RobloxMesh := do
let (h, vs, fs, ls) ← structDecode buf
finalizeMesh h vs fs ls

/-- The hash field of a successfully decoded mesh. -/
def decodedHash (buf : List ℕ) : Option ℤ := (from_cursor buf).toOption.map (·.hash)

/-- The face list of a successfully decoded mesh. -/
def decodedFaces (buf : List ℕ) : Option (List (ℤ × ℤ × ℤ)) :=
(from_cursor buf).toOption.map (·.faces)

/-- The declared vertex count of a successfully decoded mesh. -/
def decodedNumVerts (buf : List ℕ) : Option ℤ :=
(from_cursor buf).toOption.map (·.header.num_verts)

/-- Mirrors `RobloxMesh::calculate_rotation`: every live statement is
commented out in the source and the function returns the zero vector. -/
def calculate_rotation (_self _mesh2 : RobloxMesh) : Vec3 := ⟨0, 0, 0⟩

/-- Mirrors `Vector3Ext::RIGHT`. -/
def vRIGHT : Vec3 := ⟨1, 0, 0⟩

/-- Mirrors `Vector3Ext::UP`. -/
def vUP : Vec3 := ⟨0, 1, 0⟩

/-- Mirrors `Vector3Ext::BACK`. -/
def vBACK : Vec3 := ⟨0, 0, 1⟩

/-- Mirrors `Vector3Ext::add`. -/
def vadd (a b : Vec3) : Vec3 := ⟨a.x + b.x, a.y + b.y, a.z + b.z⟩

/-- Mirrors `Vector3Ext::mult` (scaling by a scalar). -/
def vmult (a : Vec3) (i : ℚ) : Vec3 := ⟨a.x * i, a.y * i, a.z * i⟩

/-- Mirrors `Vector3Ext::cross`. -/
def vcross (a b : Vec3) : Vec3 :=
⟨a.y * b.z - b.y * a.z, a.z * b.x - b.z * a.x, a.x * b.y - b.x * a.y⟩

/-- Mirrors `Vector3Ext::dot`. -/
def vdot (a b : Vec3) : ℚ := a.x * b.x + a.y * b.y + a.z * b.z

/-- Mirrors `Vector3Ext::normalize`, which divides by the squared magnitude
`self.dot(self)` exactly as the source does. -/
def vnormalize (a : Vec3) : Vec3 :=
let m := vdot a a
⟨a.x / m, a.y / m, a.z / m⟩

/-- Mirrors `Vector3Ext::axis_angle`.  The `f32::cos`/`f32::sin` library calls
are supplied as function parameters `tcos`/`tsin`. -/
def axis_angle (tcos tsin : ℚ → ℚ) (self axis : Vec3) (t : ℚ) : Vec3 :=
let unit := vnormalize self
let c := tcos t
let s := tsin t
let a1 := vmult axis c
let a2 := vmult unit (vdot axis unit * (1 - c))
let a3 := vmult (vcross unit axis) s
vadd a1 (vadd a2 a3)

/-- Mirrors `CFrameExt::default` (identity orientation, zero position). -/
def cfDefault : CFrame := ⟨⟨0, 0, 0⟩, ⟨vRIGHT, vUP, vBACK⟩⟩

/-- Mirrors `CFrameExt::from_axis_angle`: rotates the three canonical basis
vectors about `axis` and assembles the columns into the orientation rows. -/
def from_axis_angle (tcos tsin : ℚ → ℚ) (axis : Vec3) (theta : ℚ) : CFrame :=
let r := axis_angle tcos tsin axis vRIGHT theta
let u := axis_angle tcos tsin axis vUP theta
let b := axis_angle tcos tsin axis vBACK theta
⟨⟨0, 0, 0⟩, ⟨⟨r.x, u.x, b.x⟩, ⟨r.y, u.y, b.y⟩, ⟨r.z, u.z, b.z⟩⟩⟩

/-- Mirrors `CFrameExt::mult`: the twelve sum-of-products components read off
`components()` of both operands. -/
def cfMult (a b : CFrame) : CFrame :=
let ax := a.position.x
let ay := a.position.y
let az := a.position.z
let a11 := a.orientation.x.x
let a12 := a.orientation.x.y
let a13 := a.orientation.x.z
let a21 := a.orientation.y.x
let a22 := a.orientation.y.y
let a23 := a.orientation.y.z
let a31 := a.orientation.z.x
let a32 := a.orientation.z.y
let a33 := a.orientation.z.z
let bx := b.position.x
let by' := b.position.y
let bz := b.position.z
let b11 := b.orientation.x.x
let b12 := b.orientation.x.y
let b13 := b.orientation.x.z
let b21 := b.orientation.y.x
let b22 := b.orientation.y.y
let b23 := b.orientation.y.z
let b31 := b.orientation.z.x
let b32 := b.orientation.z.y
let b33 := b.orientation.z.z
{ position := ⟨a11 * bx + a12 * by' + a13 * bz + ax,
               a21 * bx + a22 * by' + a23 * bz + ay,
               a31 * bx + a32 * by' + a33 * bz + az⟩,
  orientation := ⟨⟨a11 * b11 + a12 * b21 + a13 * b31,
                   a11 * b12 + a12 * b22 + a13 * b32,
                   a11 * b13 + a12 * b23 + a13 * b33⟩,
                  ⟨a21 * b11 + a22 * b21 + a23 * b31,
                   a21 * b12 + a22 * b22 + a23 * b32,
                   a21 * b13 + a22 * b23 + a23 * b33⟩,
                  ⟨a31 * b11 + a32 * b21 + a33 * b31,
                   a31 * b12 + a32 * b22 + a33 * b32,
                   a31 * b13 + a32 * b23 + a33 * b33⟩⟩ }

/-- Mirrors `CFrameExt::angles`: rotation about the three canonical axes,
composed with `mult`. -/
def cfAngles (tcos tsin : ℚ → ℚ) (x y z : ℚ) : CFrame :=
cfMult (cfMult (from_axis_angle tcos tsin vRIGHT x) (from_axis_angle tcos tsin vUP y))
  (from_axis_angle tcos tsin vBACK z)

/-- A candidate scene object with the five properties the dedup loop reads
and writes (`TextureID`, `MeshId`, `InitialSize`, `Size`, `CFrame`), plus its
name. -/
structure SceneObject where
name : String
textureId : String
meshId : String
initSize : Vec3
size : Vec3
cframe : CFrame
deriving DecidableEq, Repr

/-- Mirrors the `CachedMesh` struct of `main.rs`. -/
structure CachedMesh where
cframe : CFrame
mesh : RobloxMesh
asset_id : String
init_size : Vec3
size : Vec3
deriving DecidableEq, Repr

/-- Association-list model of the `BTreeMap<i32, CachedMesh>` dedup cache.
Entries are only ever inserted for absent keys, so a front insertion is an
exact model of map insertion. -/
def cacheFind : List (ℤ × CachedMesh) → ℤ → Option CachedMesh
| [], _ => none
| (k, e) :: rest, k' => if k = k' then some e else cacheFind rest k'

/-- The dedup loop of `main`: each object is skipped when its trimmed texture
or mesh identifier is blank; otherwise its mesh (as decoded from its mesh id,
supplied by `meshOf`) is looked up in the cache by hash.  A hit rewrites the
object's `MeshId`, `Size`, `InitialSize` and `CFrame` properties from the
cached representative; a miss caches the object as the representative,
leaving it unmodified.  Returns the processed objects in order and the final
cache. -/
def dedupLoop (meshOf : String → RobloxMesh) (tcos tsin : ℚ → ℚ) :
    List SceneObject → List (ℤ × CachedMesh) → List SceneObject × List (ℤ × CachedMesh)
| [], cache => ([], cache)
| o :: rest, cache =>
  if rustTrim o.textureId = "" ∨ rustTrim o.meshId = "" then
    (o :: (dedupLoop meshOf tcos tsin rest cache).1,
      (dedupLoop meshOf tcos tsin rest cache).2)
  else
    match cacheFind cache (meshOf o.meshId).hash with
    | some rep =>
      ({ o with
          meshId := rep.asset_id
          size := rep.size
          initSize := rep.init_size
          cframe := cfMult o.cframe
            (cfAngles tcos tsin 0 (calculate_rotation (meshOf o.meshId) rep.mesh).y 0) } ::
          (dedupLoop meshOf tcos tsin rest cache).1,
        (dedupLoop meshOf tcos tsin rest cache).2)
    | none =>
      (o :: (dedupLoop meshOf tcos tsin rest
          (((meshOf o.meshId).hash,
            ⟨o.cframe, meshOf o.meshId, o.meshId, o.initSize, o.size⟩) :: cache)).1,
        (dedupLoop meshOf tcos tsin rest
          (((meshOf o.meshId).hash,
            ⟨o.cframe, meshOf o.meshId, o.meshId, o.initSize, o.size⟩) :: cache)).2)

/-- Outcome of one spawned fetch task as observed by `join_all`: the task ran
to completion returning whether `download_asset` succeeded, or it panicked
(a `JoinError`). -/
inductive TaskResult where
| done : Bool → TaskResult
| panicked : TaskResult
deriving DecidableEq, Repr

/-- The spawning loop of `download_meshs`: resolves each referent in the
scene (returning `Err(())` as soon as one is absent) and collects the mesh
ids handed to the spawned fetch tasks, in order. -/
def spawnAll (dom : ℕ → Option SceneObject) : List ℕ → Except Unit (List String)
| [] => .ok []
| r :: rest =>
  match dom r with
  | some child =>
    match spawnAll dom rest with
    | .ok ids => .ok (child.meshId :: ids)
    | .error e => .error e
  | none => .error ()

/-- Does `join_all`'s scan find a failed or panicked task? -/
def anyTaskFailed (results : List TaskResult) : Bool :=
results.any fun r =>
  match r with
  | .done ok => !ok
  | .panicked => true

/-- Mirrors `download_meshs`: all fetch tasks are awaited and the batch
succeeds exactly when every referent resolved and every task completed with a
successful download.  The semaphore bounding concurrency to 4 does not affect
the aggregated result and is not modelled. -/
def download_meshs (dom : ℕ → Option SceneObject) (fetch : String → TaskResult)
    (refs : List ℕ) : Except Unit Unit :=
match spawnAll dom refs with
| .error _ => .error ()
| .ok ids => if anyTaskFailed (ids.map fetch) then .error () else .ok ()

/-- A placeholder object for the `expect` lookups of the dedup phase, which
cannot fail once `download_meshs` has succeeded. -/
def dummyObject : SceneObject := ⟨"", "", "", ⟨0, 0, 0⟩, ⟨0, 0, 0⟩, cfDefault⟩

/-- The phase structure of `main` after the place is opened: if the download
batch fails, the run stops (`return`) before the dedup loop and before any
output is written (`none`); otherwise the dedup loop runs over the children
in order and the mutated scene is saved (`some`). -/
def mainPipeline (dom : ℕ → Option SceneObject) (fetch : String → TaskResult)
    (meshOf : String → RobloxMesh) (tcos tsin : ℚ → ℚ) (refs : List ℕ) :
    Option (List SceneObject × List (ℤ × CachedMesh)) :=
match download_meshs dom fetch refs with
| .error _ => none
| .ok _ => some (dedupLoop meshOf tcos tsin (refs.map fun r => (dom r).getD dummyObject) [])

/-- Modelled from the spec: component-wise minimum of two vectors. -/
def specMinV (a b : Vec3) : Vec3 := ⟨min a.x b.x, min a.y b.y, min a.z b.z⟩

/-- Modelled from the spec: component-wise maximum of two vectors. -/
def specMaxV (a b : Vec3) : Vec3 := ⟨max a.x b.x, max a.y b.y, max a.z b.z⟩

/-- Modelled from the spec: the component-wise minimum of a list of positions,
starting from `a`. -/
def specFoldMin (a : Vec3) (l : List Vec3) : Vec3 := l.foldl specMinV a

/-- Modelled from the spec: the component-wise maximum of a list of positions,
starting from `a`. -/
def specFoldMax (a : Vec3) (l : List Vec3) : Vec3 := l.foldl specMaxV a

/-- The exact rational operand of the final cast in `calculate_hash`:
`|min.x+min.y+min.z| + (max.x+max.y+max.z)` over the bounding-box corners. -/
def hashExtent (m : RobloxMesh) : ℚ :=
abs (m.bounding_box_size.min.x + m.bounding_box_size.min.y + m.bounding_box_size.min.z) +
  (m.bounding_box_size.max.x + m.bounding_box_size.max.y + m.bounding_box_size.max.z)

/-- Modelled from the spec: the claimed dedup key
`triangle_count + floor(|bbox.min.x+min.y+min.z| + (bbox.max.x+max.y+max.z))`. -/
def specDedupKeyFloor (m : RobloxMesh) : ℤ := m.triangles + ⌊hashExtent m⌋

/-- The claimed dedup key of a successfully decoded mesh. -/
def decodedSpecKey (buf : List ℕ) : Option ℤ :=
(from_cursor buf).toOption.map specDedupKeyFloor

/-- Modelled from the spec: a 3×3 rotation matrix applied to a vector
(row-times-vector). -/
def m3apply (m : Matrix3) (v : Vec3) : Vec3 := ⟨vdot m.x v, vdot m.y v, vdot m.z v⟩

/-- Modelled from the spec: the standard 3×3 matrix product. -/
def m3mul (a b : Matrix3) : Matrix3 :=
⟨⟨a.x.x * b.x.x + a.x.y * b.y.x + a.x.z * b.z.x,
  a.x.x * b.x.y + a.x.y * b.y.y + a.x.z * b.z.y,
  a.x.x * b.x.z + a.x.y * b.y.z + a.x.z * b.z.z⟩,
 ⟨a.y.x * b.x.x + a.y.y * b.y.x + a.y.z * b.z.x,
  a.y.x * b.x.y + a.y.y * b.y.y + a.y.z * b.z.y,
  a.y.x * b.x.z + a.y.y * b.y.z + a.y.z * b.z.z⟩,
 ⟨a.z.x * b.x.x + a.z.y * b.y.x + a.z.z * b.z.x,
  a.z.x * b.x.y + a.z.y * b.y.y + a.z.z * b.z.y,
  a.z.x * b.x.z + a.z.y * b.y.z + a.z.z * b.z.z⟩⟩

/-- Little-endian bytes of a 16-bit value. -/
def le16 (n : ℕ) : List ℕ := [n % 256, n / 256 % 256]

/-- Little-endian bytes of a 32-bit value. -/
def le32 (n : ℕ) : List ℕ := [n % 256, n / 256 % 256, n / 65536 % 256, n / 16777216 % 256]

/-- A well-formed banner-plus-header prefix with the given mesh, vertex,
face, LOD and bone counts (name-table size, skin-data count and stub zero). -/
def hdrBuf (nm nv nf nl nb : ℕ) : List ℕ :=
bannerBytes ++ le16 24 ++ le16 nm ++ le32 nv ++ le32 nf ++ le16 nl ++ le16 nb ++
  le32 0 ++ le16 0 ++ le16 0

/-- A 40-byte vertex record that is all zeros (position at the origin). -/
def zeroVert : List ℕ := List.replicate 40 0

/-- A 40-byte vertex record whose position is `(2^40, 0, 0)` (the `f32` bit
pattern `0x53800000`), everything else zero. -/
def bigVert : List ℕ := [0, 0, 128, 83] ++ List.replicate 36 0

/-- A 40-byte vertex record whose position is `(-1, -1, -1)` (three copies of
the `f32` bit pattern `0xBF800000`), everything else zero. -/
def negOneVert : List ℕ :=
[0, 0, 128, 191] ++ [0, 0, 128, 191] ++ [0, 0, 128, 191] ++ List.replicate 28 0

/-- A 40-byte vertex record whose position is `(1, 1, 1)` (three copies of
the `f32` bit pattern `0x3F800000`), everything else zero. -/
def posOneVert : List ℕ :=
[0, 0, 128, 63] ++ [0, 0, 128, 63] ++ [0, 0, 128, 63] ++ List.replicate 28 0

/-- The bytes of the banner `"version 3.00\n"`. -/
def bufBadBanner : List ℕ := [118, 101, 114, 115, 105, 111, 110, 32, 51, 46, 48, 48, 10]

/-- A structurally complete buffer whose header declares zero vertices. -/
def bufZeroVerts : List ℕ := hdrBuf 0 0 0 0 0

/-- A decodable buffer with four identical vertices at `(2^40, 0, 0)`. -/
def bufHugeBBox : List ℕ := hdrBuf 0 4 0 0 0 ++ bigVert ++ bigVert ++ bigVert ++ bigVert

/-- A buffer declaring four vertices and one bone, whose trailing bone-weight
block holds only 3 of the required 32 bytes. -/
def bufBoneTrunc : List ℕ := hdrBuf 0 4 0 0 1 ++ List.replicate 160 0 ++ [7, 7, 7]

/-- Header plus four zero vertices, declaring one face whose 12 record bytes
are still to come. -/
def facePre : List ℕ := hdrBuf 0 4 1 0 0 ++ List.replicate 160 0

/-- A decodable buffer with four vertices and one face whose three vertex
indices are all 100, far beyond the vertex count of 4. -/
def bufBadFace : List ℕ := facePre ++ le32 100 ++ le32 100 ++ le32 100

/-- A well-formed buffer: four vertices spanning the bounding box
`min (-1,-1,-1)`, `max (1,1,1)`, one face `(0,1,2)`, and LOD boundaries
`[0, 10]` (so 10 triangles). -/
def bufGood : List ℕ :=
hdrBuf 0 4 1 2 0 ++ negOneVert ++ posOneVert ++ negOneVert ++ posOneVert ++
  le32 0 ++ le32 1 ++ le32 2 ++ le32 0 ++ le32 10

/-- Eligibility of a scene object for the dedup group of key `k`: its trimmed
texture and mesh identifiers are non-blank and its decoded mesh hashes to
`k`. -/
def eligibleFor (meshOf : String → RobloxMesh) (k : ℤ) (o : SceneObject) : Prop :=
¬(rustTrim o.textureId = "" ∨ rustTrim o.meshId = "") ∧ (meshOf o.meshId).hash = k

/-- A concrete decoded-mesh value (dedup key 42) used to instantiate
hypothesis-bearing theorems on concrete inputs. -/
def sampleMeshA : RobloxMesh :=
{ header := ⟨0, 4, 0, 0, 0, 0, 0, 0⟩, lods := [], faces := [], vertices := [],
  bounding_box := ⟨⟨0, 0, 0⟩, ⟨0, 0, 0⟩, ⟨0, 0, 0⟩, ⟨0, 0, 0⟩⟩,
  bounding_box_size := ⟨⟨0, 0, 0⟩, ⟨0, 0, 0⟩⟩, rotation := ⟨0, 0, 0⟩,
  triangles := 0, hash := 42 }

/-- A decode oracle mapping every mesh id to `sampleMeshA`, so that two
distinct asset ids collide on the same dedup key. -/
def constMeshOf : String → RobloxMesh := fun _ => sampleMeshA

/-- First scene object of the concrete dedup scenario. -/
def objA : SceneObject :=
⟨"PartA", "rbxassetid://900", "rbxassetid://111", ⟨1, 2, 3⟩, ⟨4, 5, 6⟩, cfDefault⟩

/-- Second scene object of the concrete dedup scenario (same dedup key). -/
def objB : SceneObject :=
⟨"PartB", "rbxassetid://901", "rbxassetid://222", ⟨7, 8, 9⟩, ⟨10, 11, 12⟩, cfDefault⟩

/-- A scene object whose texture identifier is blank after trimming. -/
def blankObj : SceneObject :=
⟨"Blank", "  ", "rbxassetid://333", ⟨0, 0, 0⟩, ⟨0, 0, 0⟩, cfDefault⟩

/-- The mesh decoded from `bufHugeBBox` (defaulting to a dummy; the decode in
fact succeeds). -/
def hugeMesh : RobloxMesh := (from_cursor bufHugeBBox).toOption.getD
  ⟨⟨0, 0, 0, 0, 0, 0, 0, 0⟩, [], [], [], ⟨⟨0, 0, 0⟩, ⟨0, 0, 0⟩, ⟨0, 0, 0⟩, ⟨0, 0, 0⟩⟩,
    ⟨⟨0, 0, 0⟩, ⟨0, 0, 0⟩⟩, ⟨0, 0, 0⟩, 0, 0⟩

/-- The mesh decoded from `bufGood` (defaulting to a dummy; the decode in
fact succeeds). -/
def goodMesh : RobloxMesh := (from_cursor bufGood).toOption.getD
  ⟨⟨0, 0, 0, 0, 0, 0, 0, 0⟩, [], [], [], ⟨⟨0, 0, 0⟩, ⟨0, 0, 0⟩, ⟨0, 0, 0⟩, ⟨0, 0, 0⟩⟩,
    ⟨⟨0, 0, 0⟩, ⟨0, 0, 0⟩⟩, ⟨0, 0, 0⟩, 0, 0⟩

/-- A scene lookup for the batch-fetch scenario: every referent resolves. -/
def failDom : ℕ → Option SceneObject := fun _ => some objA

/-- A fetch oracle whose every task completes with a failed download. -/
def failFetch : String → TaskResult := fun _ => .done false

theorem from_cursor_of_header_err (buf : List ℕ) (e : RunErr)
    (h : read_header buf = .error e) : from_cursor buf = .error e := by
  unfold from_cursor structDecode
  rw [h]
  rfl

theorem if_lt_eq_min (a b : ℚ) : (if b < a then b else a) = min a b := by
  rcases lt_or_le b a with h | h
  · rw [if_pos h, min_eq_right h.le]
  · rw [if_neg (not_lt.mpr h), min_eq_left h]

theorem if_gt_eq_max (a b : ℚ) : (if b > a then b else a) = max a b := by
  rcases lt_or_le a b with h | h
  · rw [if_pos h, max_eq_right h.le]
  · rw [if_neg (not_lt.mpr h), max_eq_left h]

theorem bboxStep_eq (mn mx p : Vec3) : bboxStep mn mx p = (specMinV mn p, specMaxV mx p) := by
  simp [bboxStep, specMinV, specMaxV, if_lt_eq_min, if_gt_eq_max]

theorem bboxLoop_eq : ∀ (l : List Vec3) (mn mx : Vec3),
    bboxLoop mn mx l = (specFoldMin mn l, specFoldMax mx l) := by
  intro l
  induction l with
  | nil => intro mn mx; rfl
  | cons p rest ih =>
    intro mn mx
    rw [bboxLoop, bboxStep_eq]
    rw [ih]
    rfl

theorem specFoldMin_le : ∀ (l : List Vec3) (a : Vec3),
    (specFoldMin a l).x ≤ a.x ∧ (specFoldMin a l).y ≤ a.y ∧ (specFoldMin a l).z ≤ a.z := by
  intro l
  induction l with
  | nil => intro a; exact ⟨le_refl _, le_refl _, le_refl _⟩
  | cons p rest ih =>
    intro a
    have h := ih (specMinV a p)
    rw [specFoldMin, List.foldl_cons] at *
    exact ⟨le_trans h.1 (min_le_left _ _), le_trans h.2.1 (min_le_left _ _),
      le_trans h.2.2 (min_le_left _ _)⟩

theorem specFoldMax_ge : ∀ (l : List Vec3) (a : Vec3),
    a.x ≤ (specFoldMax a l).x ∧ a.y ≤ (specFoldMax a l).y ∧ a.z ≤ (specFoldMax a l).z := by
  intro l
  induction l with
  | nil => intro a; exact ⟨le_refl _, le_refl _, le_refl _⟩
  | cons p rest ih =>
    intro a
    have h := ih (specMaxV a p)
    rw [specFoldMax, List.foldl_cons] at *
    exact ⟨le_trans (le_max_left _ _) h.1, le_trans (le_max_left _ _) h.2.1,
      le_trans (le_max_left _ _) h.2.2⟩

theorem wrap32_eq_self (n : ℤ) (h0 : -(2 ^ 31) ≤ n) (h1 : n ≤ 2 ^ 31 - 1) : wrap32 n = n := by
  unfold wrap32
  omega

theorem f32AsI32_eq_floor (q : ℚ) (h0 : 0 ≤ q) (h1 : q ≤ 2 ^ 31 - 1) : f32AsI32 q = ⌊q⌋ := by
  unfold f32AsI32
  rw [if_pos h0]
  have hf1 : ⌊q⌋ ≤ 2 ^ 31 - 1 := by
    have h2 : ⌊q⌋ ≤ ⌊(2 ^ 31 - 1 : ℚ)⌋ := Int.floor_le_floor h1
    have h3 : ⌊(2 ^ 31 - 1 : ℚ)⌋ = 2 ^ 31 - 1 := by norm_num
    omega
  have hf0 : (0 : ℤ) ≤ ⌊q⌋ := Int.floor_nonneg.mpr h0
  show max (-(2 : ℤ) ^ 31) (min ((2 : ℤ) ^ 31 - 1) ⌊q⌋) = ⌊q⌋
  rw [min_eq_right hf1, max_eq_right (by omega)]

theorem from_cursor_ok_shape (buf : List ℕ) (m : RobloxMesh) (h : from_cursor buf = .ok m) :
    ∃ v0 vt, m.vertices = v0 :: vt ∧
      m.bounding_box_size.min = specFoldMin v0.position (m.vertices.map (·.position)) ∧
      m.bounding_box_size.max = specFoldMax v0.position (m.vertices.map (·.position)) ∧
      m.triangles =
        (if m.lods.length > 1 then wrap32 (m.lods.getD 1 0 - m.lods.getD 0 0) else 0) ∧
      m.hash = wrap32 (m.triangles + f32AsI32 (hashExtent m)) := by
  unfold from_cursor at h
  cases hs : structDecode buf with
  | error e =>
    rw [hs] at h
    exact absurd h (by simp [Bind.bind, Except.bind])
  | ok q =>
    obtain ⟨hd, vs, fs, ls⟩ := q
    rw [hs] at h
    change finalizeMesh hd vs fs ls = .ok m at h
    unfold finalizeMesh at h
    cases vs with
    | nil =>
      exact absurd h (by simp [calculate_bounding_box_size, Bind.bind, Except.bind])
    | cons v0 vt =>
      rw [show calculate_bounding_box_size (v0 :: vt) =
          .ok ⟨(bboxLoop v0.position v0.position ((v0 :: vt).map (·.position))).1,
               (bboxLoop v0.position v0.position ((v0 :: vt).map (·.position))).2⟩ from rfl] at h
      cases hcb : caculate_bounding_box (v0 :: vt) with
      | error e =>
        rw [hcb] at h
        exact absurd h (by simp [Bind.bind, Except.bind])
      | ok bb =>
        rw [hcb] at h
        simp only [Bind.bind, Except.bind, Except.ok.injEq] at h
        subst h
        refine ⟨v0, vt, rfl, ?_, ?_, rfl, ?_⟩
        · simp only [bboxLoop_eq]
        · simp only [bboxLoop_eq]
        · rfl

theorem dedup_cache_stable (meshOf : String → RobloxMesh) (tcos tsin : ℚ → ℚ) :
    ∀ (objs : List SceneObject) (cache : List (ℤ × CachedMesh)) (k : ℤ) (e : CachedMesh),
      cacheFind cache k = some e →
      cacheFind (dedupLoop meshOf tcos tsin objs cache).2 k = some e := by
  intro objs
  induction objs with
  | nil => intro cache k e h; exact h
  | cons o rest ih =>
    intro cache k e h
    by_cases hblank : rustTrim o.textureId = "" ∨ rustTrim o.meshId = ""
    · rw [dedupLoop, if_pos hblank]
      exact ih cache k e h
    · rw [dedupLoop, if_neg hblank]
      split
      next rep hfind => exact ih cache k e h
      next hfind =>
        apply ih
        have hne : (meshOf o.meshId).hash ≠ k := by
          intro heq
          rw [heq, h] at hfind
          exact Option.noConfusion hfind
        rw [cacheFind, if_neg hne]
        exact h

theorem dedup_rewrites_when_cached (meshOf : String → RobloxMesh) (tcos tsin : ℚ → ℚ) :
    ∀ (objs : List SceneObject) (cache : List (ℤ × CachedMesh)) (k : ℤ) (e : CachedMesh),
      cacheFind cache k = some e →
      ∀ j, j < objs.length → eligibleFor meshOf k (objs.getD j dummyObject) →
        ((dedupLoop meshOf tcos tsin objs cache).1.getD j dummyObject).meshId = e.asset_id ∧
        ((dedupLoop meshOf tcos tsin objs cache).1.getD j dummyObject).size = e.size ∧
        ((dedupLoop meshOf tcos tsin objs cache).1.getD j dummyObject).initSize =
          e.init_size := by
  intro objs
  induction objs with
  | nil => intro cache k e h j hj helig; exact absurd hj (by simp)
  | cons o rest ih =>
    intro cache k e h j hj helig
    cases j with
    | zero =>
      simp only [List.getD_cons_zero] at helig
      have hblank : ¬(rustTrim o.textureId = "" ∨ rustTrim o.meshId = "") := helig.1
      rw [dedupLoop, if_neg hblank]
      rw [show cacheFind cache (meshOf o.meshId).hash = some e from helig.2.symm ▸ h]
      simp only [List.getD_cons_zero]
      exact ⟨trivial, trivial, trivial⟩
    | succ j' =>
      have hj' : j' < rest.length := by simpa using hj
      simp only [List.getD_cons_succ] at helig
      by_cases hblank : rustTrim o.textureId = "" ∨ rustTrim o.meshId = ""
      · rw [dedupLoop, if_pos hblank]
        simp only [List.getD_cons_succ]
        exact ih cache k e h j' hj' helig
      · rw [dedupLoop, if_neg hblank]
        split
        next rep hfind =>
          simp only [List.getD_cons_succ]
          exact ih cache k e h j' hj' helig
        next hfind =>
          simp only [List.getD_cons_succ]
          apply ih _ _ _ _ j' hj' helig
          have hne : (meshOf o.meshId).hash ≠ k := by
            intro heq
            rw [heq, h] at hfind
            exact Option.noConfusion hfind
          rw [cacheFind, if_neg hne]
          exact h

theorem anyTaskFailed_eq_false_iff :
    ∀ rs : List TaskResult, anyTaskFailed rs = false ↔ ∀ r ∈ rs, r = .done true := by
  intro rs
  unfold anyTaskFailed
  rw [List.any_eq_false]
  constructor
  · intro h r hr
    have hh := h r hr
    cases r with
    | done b => cases b with | true => rfl | false => simp at hh
    | panicked => simp at hh
  · intro h r hr
    rw [h r hr]
    simp

/-- C1 (counterexample): the buffer `bufHugeBBox` decodes successfully, but
its stored hash is the saturated value 2147483647 while the claimed key
`triangle_count + floor(|min sums| + max sums)` is 2199023255552, because the
Rust `as i32` cast saturates at the `i32` maximum instead of taking the
floor. -/
theorem dedup_key_floor_counterexample :
    (from_cursor bufHugeBBox).isOk = true ∧
    decodedHash bufHugeBBox = some 2147483647 ∧
    decodedSpecKey bufHugeBBox = some 2199023255552 := by
  refine ⟨rfl, ?_, ?_⟩
  · rw [show decodedHash bufHugeBBox =
        some (calculate_hash 0 ⟨⟨1099511627776, 0, 0⟩, ⟨1099511627776, 0, 0⟩⟩) from rfl]
    norm_num [calculate_hash, f32AsI32, wrap32]
  · rw [show decodedSpecKey bufHugeBBox = some (specDedupKeyFloor hugeMesh) from rfl]
    have hbbs : hugeMesh.bounding_box_size =
        ⟨⟨1099511627776, 0, 0⟩, ⟨1099511627776, 0, 0⟩⟩ := rfl
    have htri : hugeMesh.triangles = 0 := rfl
    norm_num [specDedupKeyFloor, hashExtent, htri, hbbs]

/-- C1 (amended): for every successfully decoded mesh, the stored hash equals
the wrapping `i32` sum `wrap32 (triangles + f32AsI32 (|min.x+min.y+min.z| +
(max.x+max.y+max.z)))`, where the cast operand is always non-negative;
whenever that operand and the resulting sum are within the `i32` range the
cast is the floor and the wrap is the identity, giving exactly the claimed
formula; the triangle count is the wrapping `i32` difference
`lods[1] - lods[0]` when at least two LOD boundaries exist and 0 otherwise;
the bounding-box corners are the component-wise min/max folds of all vertex
positions; and any two decoded meshes with equal triangle count and equal
bounding box receive the same key. -/
theorem dedup_key_of_decoded (buf : List ℕ) (m : RobloxMesh) (h : from_cursor buf = .ok m) :
    m.hash = wrap32 (m.triangles + f32AsI32 (hashExtent m)) ∧
    0 ≤ hashExtent m ∧
    (hashExtent m ≤ 2 ^ 31 - 1 → -(2 ^ 31) ≤ m.triangles + ⌊hashExtent m⌋ →
      m.triangles + ⌊hashExtent m⌋ ≤ 2 ^ 31 - 1 → m.hash = specDedupKeyFloor m) ∧
    m.triangles =
      (if m.lods.length > 1 then wrap32 (m.lods.getD 1 0 - m.lods.getD 0 0) else 0) ∧
    (∀ v0 vt, m.vertices = v0 :: vt →
      m.bounding_box_size.min = specFoldMin v0.position (m.vertices.map (·.position)) ∧
      m.bounding_box_size.max = specFoldMax v0.position (m.vertices.map (·.position))) ∧
    (∀ (buf2 : List ℕ) (m2 : RobloxMesh), from_cursor buf2 = .ok m2 →
      m.triangles = m2.triangles → m.bounding_box_size = m2.bounding_box_size →
      m.hash = m2.hash) := by
  obtain ⟨v0, vt, hv, hmin, hmax, htri, hhash⟩ := from_cursor_ok_shape buf m h
  have hpos0 : 0 ≤ hashExtent m := by
    have h1 := specFoldMin_le ((v0 :: vt).map (·.position)) v0.position
    have h2 := specFoldMax_ge ((v0 :: vt).map (·.position)) v0.position
    rw [← hv] at h1 h2
    rw [← hmin] at h1
    rw [← hmax] at h2
    unfold hashExtent
    have hab : m.bounding_box_size.min.x + m.bounding_box_size.min.y +
        m.bounding_box_size.min.z ≤ m.bounding_box_size.max.x +
        m.bounding_box_size.max.y + m.bounding_box_size.max.z := by
      linarith [h1.1, h1.2.1, h1.2.2, h2.1, h2.2.1, h2.2.2]
    set a := m.bounding_box_size.min.x + m.bounding_box_size.min.y + m.bounding_box_size.min.z
    set b := m.bounding_box_size.max.x + m.bounding_box_size.max.y + m.bounding_box_size.max.z
    linarith [le_abs_self a, neg_abs_le a]
  refine ⟨hhash, hpos0, ?_, htri, ?_, ?_⟩
  · intro hrange hlo hhi
    rw [hhash, f32AsI32_eq_floor _ hpos0 hrange, wrap32_eq_self _ hlo hhi]
    rfl
  · intro w0 wt hw
    rw [hv] at hw
    obtain ⟨rfl, rfl⟩ : w0 = v0 ∧ wt = vt := by
      constructor
      · exact ((List.cons.injEq ..).mp hw.symm).1
      · exact ((List.cons.injEq ..).mp hw.symm).2
    exact ⟨hmin, hmax⟩
  · intro buf2 m2 h2 htris hbbs
    obtain ⟨_, _, _, _, _, _, hhash2⟩ := from_cursor_ok_shape buf2 m2 h2
    rw [hhash, hhash2, htris,
      show hashExtent m = hashExtent m2 from by unfold hashExtent; rw [hbbs]]

/-- C1 (witness): the well-formed buffer `bufGood` decodes to a mesh with 10
triangles and bounding box min (-1,-1,-1), max (1,1,1); its hash satisfies
the formula and, the extent 6 being in range, equals the floor-based key,
evaluating to 16. -/
theorem dedup_key_of_decoded_witness :
    from_cursor bufGood = Except.ok goodMesh ∧
    goodMesh.hash = wrap32 (goodMesh.triangles + f32AsI32 (hashExtent goodMesh)) ∧
    goodMesh.hash = specDedupKeyFloor goodMesh ∧
    goodMesh.hash = 16 := by
  have hok : from_cursor bufGood = Except.ok goodMesh := rfl
  have H := dedup_key_of_decoded bufGood goodMesh hok
  have htri : goodMesh.triangles = 10 := rfl
  have hext : hashExtent goodMesh = 6 := by
    norm_num [hashExtent, show goodMesh.bounding_box_size = ⟨⟨-1, -1, -1⟩, ⟨1, 1, 1⟩⟩ from rfl]
  refine ⟨hok, H.1, H.2.2.1 (by rw [hext]; norm_num)
    (by rw [hext, htri]; norm_num) (by rw [hext, htri]; norm_num), ?_⟩
  rw [show goodMesh.hash = calculate_hash 10 ⟨⟨-1, -1, -1⟩, ⟨1, 1, 1⟩⟩ from rfl]
  norm_num [calculate_hash, f32AsI32, wrap32]

/-- C2: in the dedup loop, starting from a cache with no entry for key `k`,
the first eligible object (in the caller-supplied order) whose mesh hashes to
`k` is left unmodified and becomes the cached canonical representative
(recording its mesh, asset id, transform and sizes); every later eligible
object with the same key has its mesh id rewritten to the representative's
asset id and its size and initial size rewritten to the representative's
values; and the cache entry for `k` at the end of the run is still the first
object's entry. -/
theorem dedup_first_is_canonical (meshOf : String → RobloxMesh) (tcos tsin : ℚ → ℚ) :
    ∀ (objs : List SceneObject) (cache : List (ℤ × CachedMesh)) (k : ℤ) (i : ℕ),
      cacheFind cache k = none →
      i < objs.length →
      eligibleFor meshOf k (objs.getD i dummyObject) →
      (∀ j, j < i → ¬ eligibleFor meshOf k (objs.getD j dummyObject)) →
      ((dedupLoop meshOf tcos tsin objs cache).1.getD i dummyObject = objs.getD i dummyObject) ∧
      (cacheFind (dedupLoop meshOf tcos tsin objs cache).2 k =
        some ⟨(objs.getD i dummyObject).cframe, meshOf (objs.getD i dummyObject).meshId,
          (objs.getD i dummyObject).meshId, (objs.getD i dummyObject).initSize,
          (objs.getD i dummyObject).size⟩) ∧
      (∀ j, i < j → j < objs.length → eligibleFor meshOf k (objs.getD j dummyObject) →
        ((dedupLoop meshOf tcos tsin objs cache).1.getD j dummyObject).meshId =
          (objs.getD i dummyObject).meshId ∧
        ((dedupLoop meshOf tcos tsin objs cache).1.getD j dummyObject).size =
          (objs.getD i dummyObject).size ∧
        ((dedupLoop meshOf tcos tsin objs cache).1.getD j dummyObject).initSize =
          (objs.getD i dummyObject).initSize) := by
  intro objs
  induction objs with
  | nil => intro cache k i hc hi helig hfirst; exact absurd hi (by simp)
  | cons o rest ih =>
    intro cache k i hc hi helig hfirst
    cases i with
    | zero =>
      simp only [List.getD_cons_zero] at helig ⊢
      have hblank : ¬(rustTrim o.textureId = "" ∨ rustTrim o.meshId = "") := helig.1
      rw [dedupLoop, if_neg hblank]
      rw [show cacheFind cache (meshOf o.meshId).hash = none from helig.2.symm ▸ hc]
      have hins : cacheFind (((meshOf o.meshId).hash,
          (⟨o.cframe, meshOf o.meshId, o.meshId, o.initSize, o.size⟩ : CachedMesh)) :: cache) k =
          some ⟨o.cframe, meshOf o.meshId, o.meshId, o.initSize, o.size⟩ := by
        rw [cacheFind, if_pos helig.2]
      refine ⟨by simp only [List.getD_cons_zero], ?_, ?_⟩
      · exact dedup_cache_stable meshOf tcos tsin rest _ k _ hins
      · intro j hj0 hjlen hjelig
        cases j with
        | zero => exact absurd hj0 (by omega)
        | succ j' =>
          simp only [List.getD_cons_succ] at hjelig ⊢
          exact dedup_rewrites_when_cached meshOf tcos tsin rest _ k _ hins j'
            (by simpa using hjlen) hjelig
    | succ i' =>
      have hi' : i' < rest.length := by simpa using hi
      simp only [List.getD_cons_succ] at helig ⊢
      have hnotelig : ¬ eligibleFor meshOf k o := by
        have := hfirst 0 (by omega)
        simpa using this
      have hfirst' : ∀ j, j < i' → ¬ eligibleFor meshOf k (rest.getD j dummyObject) := by
        intro j hj
        have := hfirst (j + 1) (by omega)
        simpa using this
      by_cases hblank : rustTrim o.textureId = "" ∨ rustTrim o.meshId = ""
      · rw [dedupLoop, if_pos hblank]
        simp only [List.getD_cons_succ]
        have H := ih cache k i' hc hi' helig hfirst'
        refine ⟨H.1, H.2.1, ?_⟩
        intro j hj0 hjlen hjelig
        cases j with
        | zero => exact absurd hj0 (by omega)
        | succ j' =>
          simp only [List.getD_cons_succ] at hjelig ⊢
          exact H.2.2 j' (by omega) (by simpa using hjlen) hjelig
      · rw [dedupLoop, if_neg hblank]
        split
        next rep hfind =>
          simp only [List.getD_cons_succ]
          have H := ih cache k i' hc hi' helig hfirst'
          refine ⟨H.1, H.2.1, ?_⟩
          intro j hj0 hjlen hjelig
          cases j with
          | zero => exact absurd hj0 (by omega)
          | succ j' =>
            simp only [List.getD_cons_succ] at hjelig ⊢
            exact H.2.2 j' (by omega) (by simpa using hjlen) hjelig
        next hfind =>
          have hne : (meshOf o.meshId).hash ≠ k := by
            intro heq
            exact hnotelig ⟨hblank, heq⟩
          have hc' : cacheFind (((meshOf o.meshId).hash,
              (⟨o.cframe, meshOf o.meshId, o.meshId, o.initSize, o.size⟩ : CachedMesh)) :: cache)
              k = none := by
            rw [cacheFind, if_neg hne]
            exact hc
          simp only [List.getD_cons_succ]
          have H := ih _ k i' hc' hi' helig hfirst'
          refine ⟨H.1, H.2.1, ?_⟩
          intro j hj0 hjlen hjelig
          cases j with
          | zero => exact absurd hj0 (by omega)
          | succ j' =>
            simp only [List.getD_cons_succ] at hjelig ⊢
            exact H.2.2 j' (by omega) (by simpa using hjlen) hjelig

/-- C2 (witness): with two objects referencing mesh assets
`rbxassetid://111` and `rbxassetid://222` that decode to the same mesh (key
42), the first object is left unmodified and cached as the representative,
and the second object's mesh id is rewritten to `rbxassetid://111` with its
size fields copied from the first object. -/
theorem dedup_first_is_canonical_witness :
    ((dedupLoop constMeshOf (fun _ => 1) (fun _ => 0) [objA, objB] []).1.getD 0 dummyObject
      = objA) ∧
    (cacheFind (dedupLoop constMeshOf (fun _ => 1) (fun _ => 0) [objA, objB] []).2 42 =
      some ⟨objA.cframe, sampleMeshA, "rbxassetid://111", objA.initSize, objA.size⟩) ∧
    ((dedupLoop constMeshOf (fun _ => 1) (fun _ => 0) [objA, objB] []).1.getD 1
      dummyObject).meshId = "rbxassetid://111" ∧
    ((dedupLoop constMeshOf (fun _ => 1) (fun _ => 0) [objA, objB] []).1.getD 1
      dummyObject).size = ⟨4, 5, 6⟩ ∧
    ((dedupLoop constMeshOf (fun _ => 1) (fun _ => 0) [objA, objB] []).1.getD 1
      dummyObject).initSize = ⟨1, 2, 3⟩ := by
  have H := dedup_first_is_canonical constMeshOf (fun _ => 1) (fun _ => 0) [objA, objB] [] 42 0
    rfl (by norm_num) ⟨by decide, rfl⟩ (fun j hj => absurd hj (Nat.not_lt_zero j))
  have H2 := H.2.2 1 (by omega) (by norm_num) ⟨by decide, rfl⟩
  exact ⟨H.1, H.2.1, H2.1, H2.2.1, H2.2.2⟩

/-- C3: `calculate_rotation` returns the zero vector for every pair of
meshes, so the corrective rotation applied when rewriting a duplicate is
`CFrame::angles(0, 0, 0)`, which (since cos 0 = 1 and sin 0 = 0) is the
identity transform, and multiplying any transform by the identity leaves it
unchanged. -/
theorem rotation_stub_identity (m1 m2 : RobloxMesh) (tcos tsin : ℚ → ℚ)
    (hc : tcos 0 = 1) (hs : tsin 0 = 0) :
    calculate_rotation m1 m2 = ⟨0, 0, 0⟩ ∧
    cfAngles tcos tsin 0 (calculate_rotation m1 m2).y 0 = cfDefault ∧
    ∀ c : CFrame, cfMult c cfDefault = c := by
  refine ⟨rfl, ?_, ?_⟩
  · show cfAngles tcos tsin 0 0 0 = cfDefault
    simp [cfAngles, from_axis_angle, axis_angle, vnormalize, vdot, vmult, vcross, vadd,
      vRIGHT, vUP, vBACK, cfDefault, cfMult, hc, hs]
  · intro c
    rcases c with ⟨⟨px, py, pz⟩, ⟨⟨a11, a12, a13⟩, ⟨a21, a22, a23⟩, ⟨a31, a32, a33⟩⟩⟩
    simp [cfMult, cfDefault, vRIGHT, vUP, vBACK]

/-- C3 (witness): the identity-rotation facts instantiated at a concrete
mesh and the exact trigonometric values at angle zero. -/
theorem rotation_stub_identity_witness :
    calculate_rotation sampleMeshA sampleMeshA = ⟨0, 0, 0⟩ ∧
    cfAngles (fun _ => 1) (fun _ => 0) 0 (calculate_rotation sampleMeshA sampleMeshA).y 0 =
      cfDefault ∧
    ∀ c : CFrame, cfMult c cfDefault = c :=
  rotation_stub_identity sampleMeshA sampleMeshA (fun _ => 1) (fun _ => 0) rfl rfl

/-- C4 (counterexample): a buffer whose banner reads `version 3.00\n` makes
the decoder panic through `assert_eq!` — a process abort — rather than
returning a `BadFormat` error value to the caller. -/
theorem bad_banner_counterexample :
    from_cursor bufBadBanner = Except.error RunErr.panicAssert ∧
    RunErr.panicAssert.aborts = true :=
  ⟨rfl, rfl⟩

/-- C4 (amended): a 13-byte banner that is valid UTF-8 but differs from
`version 4.00\n`, or a header-size field different from 24, causes a
process-aborting assertion panic (not a returned error); a banner that is
not valid UTF-8 is the one case that returns an error value (the `Utf8Error`
propagated by `?`). -/
theorem header_mismatch_panics :
    (∀ buf : List ℕ, utf8Valid (padTo 13 (buf.take 13)) = true →
      padTo 13 (buf.take 13) ≠ bannerBytes → from_cursor buf = .error .panicAssert) ∧
    (∀ (b0 b1 : ℕ) (rest : List ℕ), i16Val b0 b1 ≠ 24 →
      from_cursor (bannerBytes ++ b0 :: b1 :: rest) = .error .panicAssert) ∧
    (∀ buf : List ℕ, utf8Valid (padTo 13 (buf.take 13)) = false →
      from_cursor buf = .error .utf8Err) := by
  refine ⟨?_, ?_, ?_⟩
  · intro buf hvalid hne
    apply from_cursor_of_header_err
    show (if utf8Valid (padTo 13 (buf.take 13)) then
        (if padTo 13 (buf.take 13) = bannerBytes then
          match readI16 (buf.drop 13) with
          | .error e => .error e
          | .ok (sz, r0) => if sz = 24 then readHeaderFields r0 else .error .panicAssert
        else .error .panicAssert)
      else .error .utf8Err) = Except.error RunErr.panicAssert
    rw [if_pos hvalid, if_neg hne]
  · intro b0 b1 rest hne
    apply from_cursor_of_header_err
    show (if i16Val b0 b1 = 24 then readHeaderFields rest else Except.error RunErr.panicAssert) =
      Except.error RunErr.panicAssert
    rw [if_neg hne]
  · intro buf hvalid
    apply from_cursor_of_header_err
    show (if utf8Valid (padTo 13 (buf.take 13)) then
        (if padTo 13 (buf.take 13) = bannerBytes then
          match readI16 (buf.drop 13) with
          | .error e => .error e
          | .ok (sz, r0) => if sz = 24 then readHeaderFields r0 else .error .panicAssert
        else .error .panicAssert)
      else .error .utf8Err) = Except.error RunErr.utf8Err
    rw [if_neg (by simp [hvalid])]

/-- C4 (witness): a concrete wrong banner and a concrete header size of 25
both end in the assertion panic. -/
theorem header_mismatch_panics_witness :
    from_cursor bufBadBanner = Except.error RunErr.panicAssert ∧
    from_cursor (bannerBytes ++ 25 :: 0 :: []) = Except.error RunErr.panicAssert :=
  ⟨header_mismatch_panics.1 bufBadBanner rfl (by decide),
   header_mismatch_panics.2.1 25 0 [] (by decide)⟩

/-- C5: `bufBoneTrunc` declares four vertices and one bone but supplies only
3 of the 32 required bone-weight bytes; the decoder nevertheless returns a
mesh, silently zero-filling the missing bytes, because `read_vert_weights`
uses `Read::read` (which cannot fail on a short buffer) instead of
`read_exact`. -/
theorem bone_weight_truncation_accepted :
    (from_cursor bufBoneTrunc).isOk = true ∧
    (from_cursor bufBoneTrunc).toOption.map (fun m => m.vertices.map (·.weights)) =
      some [⟨[7, 7, 7, 0], [0, 0, 0, 0]⟩, ⟨[0, 0, 0, 0], [0, 0, 0, 0]⟩,
        ⟨[0, 0, 0, 0], [0, 0, 0, 0]⟩, ⟨[0, 0, 0, 0], [0, 0, 0, 0]⟩] :=
  ⟨rfl, rfl⟩

/-- C6 (counterexample): a structurally complete buffer declaring zero
vertices makes the decoder panic with an out-of-bounds index — a process
abort — rather than returning an `Empty` error value. -/
theorem zero_vertices_counterexample :
    from_cursor bufZeroVerts = Except.error RunErr.panicIndex ∧
    RunErr.panicIndex.aborts = true :=
  ⟨rfl, rfl⟩

/-- C6 (amended): whenever the structural decode succeeds with an empty
vertex list, `from_cursor` panics with an index error (in
`calculate_bounding_box_size`, which reads `vertices[0]`). -/
theorem empty_vertices_panic (buf : List ℕ) (h : RobloxMeshHeader)
    (fs : List (ℤ × ℤ × ℤ)) (ls : List ℤ)
    (hs : structDecode buf = .ok (h, [], fs, ls)) :
    from_cursor buf = .error .panicIndex := by
  unfold from_cursor
  rw [hs]
  rfl

/-- C6 (witness): the zero-vertex buffer hits the index panic. -/
theorem empty_vertices_panic_witness :
    from_cursor bufZeroVerts = Except.error RunErr.panicIndex :=
  empty_vertices_panic bufZeroVerts ⟨0, 0, 0, 0, 0, 0, 0, 0⟩ [] [] rfl

/-- C7 (counterexample): `bufBadFace` declares 4 vertices yet decodes
successfully with the face `(100, 100, 100)` whose indices are not below the
vertex count — no rejection happens. -/
theorem face_bounds_counterexample :
    (from_cursor bufBadFace).isOk = true ∧
    decodedFaces bufBadFace = some [(100, 100, 100)] ∧
    decodedNumVerts bufBadFace = some 4 ∧
    ¬((100 : ℤ) < 4) :=
  ⟨rfl, rfl, rfl, by decide⟩

/-- C7 (amended): the decoder reads face records verbatim and performs no
bounds check: any 12 bytes in the face-record position decode successfully
into exactly the three `i32` values they encode, whatever those values
are. -/
theorem faces_read_unchecked (b0 b1 b2 b3 b4 b5 b6 b7 b8 b9 b10 b11 : ℕ) :
    (from_cursor (facePre ++ [b0, b1, b2, b3, b4, b5, b6, b7, b8, b9, b10, b11])).isOk = true ∧
    decodedFaces (facePre ++ [b0, b1, b2, b3, b4, b5, b6, b7, b8, b9, b10, b11]) =
      some [(i32Val b0 b1 b2 b3, i32Val b4 b5 b6 b7, i32Val b8 b9 b10 b11)] :=
  ⟨rfl, rfl⟩

/-- C8: an object whose trimmed texture or mesh identifier is blank is
skipped by the dedup loop: it is passed through unmodified and the cache is
exactly the cache produced by the rest of the loop. -/
theorem dedup_skips_blank (meshOf : String → RobloxMesh) (tcos tsin : ℚ → ℚ)
    (o : SceneObject) (rest : List SceneObject) (cache : List (ℤ × CachedMesh))
    (h : rustTrim o.textureId = "" ∨ rustTrim o.meshId = "") :
    dedupLoop meshOf tcos tsin (o :: rest) cache =
      (o :: (dedupLoop meshOf tcos tsin rest cache).1,
        (dedupLoop meshOf tcos tsin rest cache).2) := by
  rw [dedupLoop, if_pos h]

/-- C8 (witness): a concrete object with a whitespace-only texture id is
left unmodified and contributes no cache entry. -/
theorem dedup_skips_blank_witness :
    dedupLoop constMeshOf (fun _ => 1) (fun _ => 0) [blankObj] [] = ([blankObj], []) :=
  dedup_skips_blank constMeshOf (fun _ => 1) (fun _ => 0) blankObj [] [] (Or.inl (by decide))

/-- C9: the fetch batch succeeds exactly when every referent resolves and
every fetch task completes successfully (a failed download or a panicked
task makes the batch fail), and when the batch fails the pipeline stops:
the dedup phase never runs and no output scene is produced. -/
theorem download_batch_all_or_nothing (dom : ℕ → Option SceneObject)
    (fetch : String → TaskResult) (refs : List ℕ) (meshOf : String → RobloxMesh)
    (tcos tsin : ℚ → ℚ) :
    (download_meshs dom fetch refs = .ok () ↔
      ∃ ids, spawnAll dom refs = .ok ids ∧ ∀ i ∈ ids, fetch i = .done true) ∧
    (download_meshs dom fetch refs = .error () →
      mainPipeline dom fetch meshOf tcos tsin refs = none) := by
  constructor
  · unfold download_meshs
    cases hs : spawnAll dom refs with
    | error e => simp
    | ok ids =>
      show (if anyTaskFailed (List.map fetch ids) = true then (Except.error () : Except Unit Unit)
          else Except.ok ()) = Except.ok () ↔
        ∃ ids', (Except.ok ids : Except Unit (List String)) = Except.ok ids' ∧
          ∀ i ∈ ids', fetch i = TaskResult.done true
      have key : (if anyTaskFailed (List.map fetch ids) = true
          then (Except.error () : Except Unit Unit) else Except.ok ()) = Except.ok () ↔
          anyTaskFailed (List.map fetch ids) = false := by
        cases hf : anyTaskFailed (List.map fetch ids) <;> simp
      rw [key, anyTaskFailed_eq_false_iff]
      constructor
      · intro h
        exact ⟨ids, rfl, fun i hi => h (fetch i) (List.mem_map_of_mem _ hi)⟩
      · intro hex r hr
        obtain ⟨ids', hids', hall⟩ := hex
        obtain rfl : ids' = ids := by
          simp at hids'
          exact hids'.symm
        obtain ⟨i, hi, rfl⟩ := List.mem_map.mp hr
        exact hall i hi
  · intro he
    unfold mainPipeline
    rw [he]

/-- C9 (witness): with one referent whose fetch fails, the batch returns the
failure result and the pipeline produces no output. -/
theorem download_batch_all_or_nothing_witness :
    download_meshs failDom failFetch [0] = Except.error () ∧
    mainPipeline failDom failFetch constMeshOf (fun _ => 1) (fun _ => 0) [0] = none := by
  have he : download_meshs failDom failFetch [0] = Except.error () := rfl
  exact ⟨he, (download_batch_all_or_nothing failDom failFetch [0] constMeshOf
    (fun _ => 1) (fun _ => 0)).2 he⟩

/-- C10: `CFrameExt::mult` composes rigid transforms: the result's position
is `A.rotation · B.position + A.position` and the result's rotation is the
standard 3×3 matrix product `A.rotation · B.rotation`, component by
component. -/
theorem mult_is_affine_composition (a b : CFrame) :
    (cfMult a b).position = vadd (m3apply a.orientation b.position) a.position ∧
    (cfMult a b).orientation = m3mul a.orientation b.orientation := by
  rcases a with ⟨⟨ax, ay, az⟩, ⟨⟨a11, a12, a13⟩, ⟨a21, a22, a23⟩, ⟨a31, a32, a33⟩⟩⟩
  rcases b with ⟨⟨bx, bv, bz⟩, ⟨⟨b11, b12, b13⟩, ⟨b21, b22, b23⟩, ⟨b31, b32, b33⟩⟩⟩
  refine ⟨?_, ?_⟩ <;> simp [cfMult, m3apply, m3mul, vadd, vdot]
